import Mathlib

/-!
Verification of the job-board repository: a shallow embedding of the user
repository (`internal/user/repository.go`, `internal/user/model.go`), the
template renderer and the HTTP middleware stack (package `template` and
package `middleware`), together with theorems settling the specification
claims about them.

Timestamps are modelled as epoch seconds (`Int`), SQL `NULL`-able columns as
`Option`, and the external inputs of each function (database contents,
wall-clock time, generated ids, parsed HTTP data, token verification) as
explicit parameters.
-/

namespace JobBoard

/-! ## User model (`internal/user/model.go`) -/

/-- Constant `UserTypeDeveloper` from `model.go`. -/
def UserTypeDeveloper : String := "jobseeker"

/-- Constant `UserTypeAdmin` from `model.go`. -/
def UserTypeAdmin : String := "admin"

/-- Constant `UserTypeRecruiter` from `model.go`. -/
def UserTypeRecruiter : String := "workerseeker"

/-- The `User` struct of `model.go`. The Go field `Type` is spelled `Type_`
(Lean reserves `Type`); `time.Time` fields are epoch seconds. -/
structure User where
  ID : String
  Email : String
  EmailVerified : Bool
  AccessToken : String
  RefreshToken : String
  ExpirationTime : Int
  CreatedAt : Int
  Type_ : String
  IsAdmin : Bool
  CreatedAtHumanised : String
deriving DecidableEq

/-! ## Database model

The repository talks to PostgreSQL through `database/sql`. We model the four
tables the spec lists (`users`, `user_sign_on_token`, `recruiter_profile`,
`developer_profile`) as lists of rows, and each SQL statement of
`repository.go` as a function on this state. A `QueryRow(...).Scan(...)`
either produces a row, the `sql.ErrNoRows` error, or another database error,
which we capture in `DBError`. -/

/-- Errors surfaced by `database/sql` row scans, plus the one ordinary error
value the repository itself constructs (`errors.New("token not found")`). -/
inductive DBError where
  /-- Go `sql.ErrNoRows`. -/
  | errNoRows
  /-- PostgreSQL rejecting a query that references a column absent from the
  table (`ERROR: column ... does not exist`); `database/sql` returns it from
  `Scan`. -/
  | undefinedColumn (col : String)
  /-- A `Scan` failing to convert a SQL `NULL` into a plain Go `string`. -/
  | scanNull
  /-- Any other error value. -/
  | other (msg : String)
deriving DecidableEq

/-- A row of the `users` table. The columns are the ones the CreateUser INSERT of the repository itself and `GetUser` SELECT enumerate; every column other than
the inserted ones may be NULL, so all are `Option`. -/
structure UserRow where
  id : Option String
  email : Option String
  createdAt : Option Int
  userType : Option String
  emailVerified : Option Bool
  accessToken : Option String
  refreshToken : Option String
  expirationTime : Option Int
deriving DecidableEq

/-- A row of the `user_sign_on_token` table, as inserted by
`SaveTokenSignOn` (all columns concrete, `created_at` from `NOW()`). -/
structure SignOnRow where
  token : String
  email : String
  userType : String
  createdAt : Int
deriving DecidableEq

/-- The database state touched by `repository.go`. The two profile tables are
only ever queried by email, so only their `email` column is modelled. -/
structure DB where
  users : List UserRow
  signOnTokens : List SignOnRow
  recruiterProfiles : List String
  developerProfiles : List String
deriving DecidableEq

/-- The column list of the `users` table, as enumerated by the CreateUser INSERT and GetUser SELECT of the repository itself. -/
def usersColumns : List String :=
  ["id", "email", "created_at", "user_type", "email_verified",
   "access_token", "refresh_token", "expiration_time"]

/-- Go `sql.NullString.String`: the empty string when the value is NULL. -/
def nullStr (o : Option String) : String := o.getD ""

/-- Go `sql.NullTime.Time`: the zero time when the value is NULL. -/
def nullTime (o : Option Int) : Int := o.getD 0

/-- Go `sql.NullBool.Bool`: `false` when the value is NULL. -/
def nullBool (o : Option Bool) : Bool := o.getD false

/-! ## `GetUser` (`repository.go` lines 27-49) -/

/-- The query of `GetUser`:
`SELECT id, email, created_at, user_type, email_verified, access_token,
refresh_token, expiration_time FROM users where id = $1`, followed by the
`Scan` into eight `sql.Null*` destinations (which cannot fail on NULLs).
A NULL `id` never equals `$1`, and no matching row yields `sql.ErrNoRows`. -/
def getUserQueryScan (db : DB) (userId : String) : Except DBError UserRow :=
  match db.users.find? (fun r => r.id == some userId) with
  | none => Except.error DBError.errNoRows
  | some r => Except.ok r

/-- The body of `GetUser` after `Scan`: `err == sql.ErrNoRows` becomes
`(nil, nil)`, any other error is returned, and a scanned row is packed into a
`User` (the fields `GetUser` assigns; `ExpirationTime`, `IsAdmin` and
`CreatedAtHumanised` stay at their zero values). -/
def getUserFromScan (res : Except DBError UserRow) : Except DBError (Option User) :=
  match res with
  | Except.error e =>
      if e = DBError.errNoRows then Except.ok none else Except.error e
  | Except.ok r =>
      Except.ok (some
        { ID := nullStr r.id
          Email := nullStr r.email
          EmailVerified := nullBool r.emailVerified
          AccessToken := nullStr r.accessToken
          RefreshToken := nullStr r.refreshToken
          ExpirationTime := 0
          CreatedAt := nullTime r.createdAt
          Type_ := nullStr r.userType
          IsAdmin := false
          CreatedAtHumanised := "" })

/-- Function `Repository.GetUser`: `Except.ok none` models the Go `(nil, nil)` return. -/
def GetUser (db : DB) (userId : String) : Except DBError (Option User) :=
  getUserFromScan (getUserQueryScan db userId)

/-! ## `GetOrCreateUserFromToken` (`repository.go` lines 71-109) -/

/-- The seven scan destinations of `GetOrCreateUserFromToken`:
`id, email, created_at, user_type, email_verified, access_token,
expiration_time`. -/
structure Scan7 where
  id : Option String
  email : Option String
  createdAt : Option Int
  userType : Option String
  emailVerified : Option Bool
  accessToken : Option String
  expirationTime : Option Int
deriving DecidableEq

/-- Modelled from the spec: the `users` schema (spec section 3 data model and
the column list `usersColumns` taken from the INSERT/SELECT statements of the repository itself) has no `token` column, while the active query of
`GetOrCreateUserFromToken` is
`SELECT id, email, created_at, user_type, email_verified, access_token,
expiration_time FROM users where token = $1`
(the intended join against `user_sign_on_token` is commented out in the
source). PostgreSQL therefore rejects the query for every database state and
every token, and `database/sql` surfaces that error from `Scan`. -/
def gocQueryScan (_db : DB) (_token : String) : Except DBError Scan7 :=
  Except.error (DBError.undefinedColumn "token")

/-- The `INSERT INTO users (id, email, created_at, user_type) VALUES
($1, $2, $3, $4)` executed on the create path of
`GetOrCreateUserFromToken`; unlisted columns are NULL. -/
def insertUserIdEmailCreatedType (db : DB) (u : User) : DB :=
  { db with users := db.users ++
      [{ id := some u.ID
         email := some u.Email
         createdAt := some u.CreatedAt
         userType := some u.Type_
         emailVerified := none
         accessToken := none
         refreshToken := none
         expirationTime := none }] }

/-- The body of `GetOrCreateUserFromToken` after `row.Scan`: any scan error is
returned unchanged (`return u, false, err`); with a row, `!accessToken.Valid`
yields `errors.New("token not found")`; a NULL `email` takes the create path
(fresh ksuid `freshId`, `time.Now()` as `now`, `humanize.Time` as `hum`,
`Email` set from the `access_token` column) and inserts the new row;
otherwise the existing row is returned with `existed = true`. -/
def gocFromScan (db : DB) (freshId : String) (now : Int) (hum : Int → String)
    (res : Except DBError Scan7) : Except DBError (User × Bool × DB) :=
  match res with
  | Except.error e => Except.error e
  | Except.ok r =>
      if r.accessToken.isNone then
        Except.error (DBError.other "token not found")
      else if r.email.isNone then
        let u : User :=
          { ID := freshId
            Email := nullStr r.accessToken
            EmailVerified := false
            AccessToken := ""
            RefreshToken := ""
            ExpirationTime := 0
            CreatedAt := now
            Type_ := nullStr r.userType
            IsAdmin := false
            CreatedAtHumanised := hum now }
        Except.ok (u, false, insertUserIdEmailCreatedType db u)
      else
        Except.ok
          ({ ID := nullStr r.id
             Email := nullStr r.email
             EmailVerified := false
             AccessToken := ""
             RefreshToken := ""
             ExpirationTime := 0
             CreatedAt := nullTime r.createdAt
             Type_ := nullStr r.userType
             IsAdmin := false
             CreatedAtHumanised := hum (nullTime r.createdAt) }, true, db)

/-- Function `Repository.GetOrCreateUserFromToken`. `freshId` stands for
`ksuid.NewRandom()`, `now` for `time.Now()`, `hum` for `humanize.Time`.
The `Except.ok` payload is the returned `User`, the `existed` flag, and the
database after the call. -/
def GetOrCreateUserFromToken (db : DB) (token freshId : String) (now : Int)
    (hum : Int → String) : Except DBError (User × Bool × DB) :=
  gocFromScan db freshId now hum (gocQueryScan db token)

/-! ## `DeleteExpiredUserSignOnTokens` (`repository.go` lines 116-120) -/

/-- Seven days in seconds: the SQL INTERVAL of the token-expiry DELETE. -/
def sevenDaysSeconds : Int := 7 * 86400

/-- Statement `DELETE FROM user_sign_on_token WHERE created_at < NOW() -
sevenDaysSeconds`: rows satisfying the predicate are removed, every other row and
every other table is untouched. -/
def DeleteExpiredUserSignOnTokens (db : DB) (now : Int) : DB :=
  { db with signOnTokens :=
      db.signOnTokens.filter (fun t => !(decide (t.createdAt < now - sevenDaysSeconds))) }

/-! ## `GetUserTypeByEmail` (`repository.go` lines 122-144) -/

/-- Query `SELECT user_type FROM users WHERE email = $1` scanned into a plain
`string`: no matching row is `sql.ErrNoRows`; a matching row with a NULL
`user_type` makes `Scan` fail with a conversion error. -/
def userTypeScan (db : DB) (email : String) : Except DBError String :=
  match db.users.find? (fun r => r.email == some email) with
  | none => Except.error DBError.errNoRows
  | some r =>
      match r.userType with
      | none => Except.error DBError.scanNull
      | some t => Except.ok t

/-- Query `SELECT (literal recruiter) FROM recruiter_profile WHERE email = $1`:
a hit scans the string literal recruiter. -/
def recruiterScan (db : DB) (email : String) : Except DBError String :=
  if db.recruiterProfiles.contains email then Except.ok "recruiter"
  else Except.error DBError.errNoRows

/-- Query `SELECT (literal developer) FROM developer_profile WHERE email = $1`:
a hit scans the string literal developer. -/
def developerScan (db : DB) (email : String) : Except DBError String :=
  if db.developerProfiles.contains email then Except.ok "developer"
  else Except.error DBError.errNoRows

/-- Function `Repository.GetUserTypeByEmail`, returning the Go pair
`(userType, err)` with `err` as `Option DBError`. Only `sql.ErrNoRows` from
the primary scan triggers the fallbacks; the error of the recruiter fallback is
inspected only for being nil; when the developer fallback also fails its
error is returned with the never-assigned `userType` still `""`. -/
def GetUserTypeByEmail (db : DB) (email : String) : String × Option DBError :=
  match userTypeScan db email with
  | Except.error DBError.errNoRows =>
      (match recruiterScan db email with
       | Except.ok t => (t, none)
       | Except.error _ =>
          match developerScan db email with
          | Except.ok t => (t, none)
          | Except.error e => ("", some e))
  | Except.error e => ("", some e)
  | Except.ok t => (t, none)

/-! ## Template renderer (package `template`)

The hot-reload machinery: `createTemplateFromGlob` wraps
`customtemplate.Must(... .ParseGlob(glob))`, so a parse failure panics. The
outcome of `ParseGlob` on the directory is an explicit parameter
(`Except String TemplateSet`); `none` in the results models a panic, which in
the watcher goroutine terminates the whole program. -/

/-- A compiled template set, identified by the names it can render. -/
structure TemplateSet where
  names : List String
deriving DecidableEq

/-- Function `customtemplate.Must`: the parsed template on success, a panic
(modelled as `none`) on a parse error. -/
def must (res : Except String TemplateSet) : Option TemplateSet :=
  match res with
  | Except.ok t => some t
  | Except.error _ => none

/-- Function `createTemplateFromGlob` of the template package: `Must` applied to the
`ParseGlob` outcome. -/
def createTemplateFromGlob (parsed : Except String TemplateSet) : Option TemplateSet :=
  must parsed

/-- The mutable part of the `Template` struct the watcher goroutine updates. -/
structure TemplateState where
  templates : TemplateSet
deriving DecidableEq

/-- Reaction of the watcher goroutine to a `fsnotify.Write` event
(`template.go` lines 115-118): it logs the reload and assigns
`t.templates = createTemplateFromGlob(...)`. `none` means
`customtemplate.Must` panicked on the re-parse, killing the program. -/
def reloadOnWrite (t : TemplateState) (parsed : Except String TemplateSet) :
    Option TemplateState :=
  match createTemplateFromGlob parsed with
  | some ts => some { t with templates := ts }
  | none => none

/-- The `"last"` helper of the `NewTemplate` func map: `-1` on the empty slice,
otherwise `a[len(a)-1]` (the index is in bounds, as the embedded bound proof
shows). -/
def lastHelper (a : List Int) : Int :=
  if h : a.length = 0 then -1
  else a.get ⟨a.length - 1, by omega⟩

/-! ## HTTP middleware (package `middleware`)

Requests and response writers are modelled structurally. `Header().Set`
replaces the value under a key (Go headers are a map); `WriteHeader` commits
the status code once, later calls being superfluous no-ops. Each middleware
returns the response writer as left when the wrapped handler runs, plus
whether (and, for the user middlewares, with which context token) the
wrapped handler is invoked. -/

/-- The parts of `*http.Request` the middleware reads. -/
structure Request where
  host : String
  urlPath : String
  headers : List (String × String)
deriving DecidableEq

/-- Go `r.Header.Get(k)`: the value under `k`, or `""` when absent. -/
def headerGet (r : Request) (k : String) : String :=
  match r.headers.find? (fun p => p.1 == k) with
  | some p => p.2
  | none => ""

/-- The parts of `http.ResponseWriter` state the middleware affects. -/
structure ResponseWriter where
  headers : List (String × String)
  status : Option Nat
deriving DecidableEq

/-- Go `w.Header().Set(k, v)`: map semantics, the previous value under `k` is
replaced. -/
def setHeader (w : ResponseWriter) (k v : String) : ResponseWriter :=
  { w with headers := (k, v) :: w.headers.filter (fun p => p.1 != k) }

/-- Go `w.WriteHeader(code)`: commits the status; a second call is superfluous
and changes nothing. -/
def writeHeader (w : ResponseWriter) (code : Nat) : ResponseWriter :=
  match w.status with
  | none => { w with status := some code }
  | some _ => w

/-- Reading a response header that was set, `none` when never set. -/
def lookupHeader (w : ResponseWriter) (k : String) : Option String :=
  (w.headers.find? (fun p => p.1 == k)).map (fun p => p.2)

/-- Go `http.Redirect(w, r, url, code)`: sets `Location` and writes the code. -/
def httpRedirect (w : ResponseWriter) (url : String) (code : Nat) : ResponseWriter :=
  writeHeader (setHeader w "Location" url) code

/-- Helper for `strings.Contains` on character lists: does `s` start with `pat`? -/
def leadMatch : List Char → List Char → Bool
  | [], _ => true
  | _ :: _, [] => false
  | a :: as, b :: bs => a == b && leadMatch as bs

/-- Helper for `strings.Contains` on character lists: does `pat` occur inside `s`? -/
def subMatch (pat : List Char) : List Char → Bool
  | [] => leadMatch pat []
  | c :: rest => leadMatch pat (c :: rest) || subMatch pat rest

/-- Go `strings.Contains(s, pat)`. -/
def stringContains (s pat : String) : Bool :=
  subMatch pat.toList s.toList

/-- Function `HTTPSMiddleware` of the middleware package: outside `dev`, a request whose
`X-Forwarded-Proto` is not `https` gets a 301 redirect written to
`https://` + host + path. There is no `return` after `http.Redirect`, so
`next.ServeHTTP(w, r)` runs in every case: the second component (whether the
wrapped handler is invoked) is always `true`. -/
def HTTPSMiddleware (env : String) (r : Request) (w : ResponseWriter) :
    ResponseWriter × Bool :=
  let w2 :=
    if env != "dev" && headerGet r "X-Forwarded-Proto" != "https" then
      httpRedirect w ("https://" ++ r.host ++ r.urlPath) 301
    else w
  (w2, true)

/-- The six security headers `HeadersMiddleware` sets, in source order. -/
def setSecurityHeaders (w : ResponseWriter) : ResponseWriter :=
  setHeader (setHeader (setHeader (setHeader (setHeader (setHeader w
    "Content-Security-Policy" "upgrade-insecure-requests")
    "X-Frame-Options" "deny")
    "X-XSS-Protection" "1; mode=block")
    "X-Content-Type-Options" "nosniff")
    "Strict-Transport-Security" "max-age=31536000; includeSubDomains")
    "Referrer-Policy" "origin"

/-- Function `HeadersMiddleware` of the middleware package: outside `dev`, a `User-Agent`
containing `HeadlessChrome` gets status 418 and an immediate return;
otherwise the six security headers are set and the handler runs. In `dev`
the handler runs on the untouched writer. -/
def HeadersMiddleware (env : String) (r : Request) (w : ResponseWriter) :
    ResponseWriter × Bool :=
  if env != "dev" then
    if stringContains (headerGet r "User-Agent") "HeadlessChrome" then
      (writeHeader w 418, false)
    else
      (setSecurityHeaders w, true)
  else (w, true)

/-! ## Cookie authentication (package `middleware`) -/

/-- The three sentinel errors of the middleware package. -/
inductive AuthErr where
  /-- Sentinel `ErrNoAuthSession`. -/
  | noSession
  /-- Sentinel `ErrNoAuthCookie`. -/
  | noCookie
  /-- Sentinel `ErrTokenVerificationFailed`. -/
  | tokenVerificationFailed
deriving DecidableEq

/-- The session returned by `sessionStore.Get(r, "____gc")`: `jwtValue` is
`some tk` exactly when `sess.Values["jwt"].(string)` succeeds with `tk`. -/
structure Session where
  jwtValue : Option String
deriving DecidableEq

/-- A Firebase `*auth.Token`, abstracted to its subject. -/
structure AuthToken where
  uid : String
deriving DecidableEq

/-- Function `authenticateFromCookie` of the middleware package: a failing session fetch is
`ErrNoAuthSession`, a missing/non-string `jwt` value is `ErrNoAuthCookie`,
and a failing `authClient.VerifyIDToken` (parameter `verify`) is
`ErrTokenVerificationFailed`; otherwise the verified token is returned.
(The `sess.IsNew` branch only prints and is elided.) -/
def authenticateFromCookie (sessGet : Except Unit Session)
    (verify : String → Option AuthToken) : Except AuthErr AuthToken :=
  match sessGet with
  | Except.error _ => Except.error AuthErr.noSession
  | Except.ok sess =>
      match sess.jwtValue with
      | none => Except.error AuthErr.noCookie
      | some tk =>
          match verify tk with
          | none => Except.error AuthErr.tokenVerificationFailed
          | some t => Except.ok t

/-- Function `UserAuthenticatedMiddleware`, the API variant: any authentication error
writes 401 and returns; on success the handler runs with the token in the
request context (`some tk`). -/
def UserAuthenticatedMiddleware (sessGet : Except Unit Session)
    (verify : String → Option AuthToken) (w : ResponseWriter) :
    ResponseWriter × Option AuthToken :=
  match authenticateFromCookie sessGet verify with
  | Except.error _ => (writeHeader w 401, none)
  | Except.ok tk => (w, some tk)

/-- Function `UserAuthenticatedPageMiddleware`, the page variant: `ErrNoAuthSession` and
`ErrNoAuthCookie` redirect to `/auth` with `http.StatusUnauthorized` (401);
`ErrTokenVerificationFailed` redirects to the autologin page (with
`directto` defaulting to `/profile/home` on an empty path) with
`http.StatusSeeOther` (303); on success the handler runs with the token in
the request context. -/
def UserAuthenticatedPageMiddleware (sessGet : Except Unit Session)
    (verify : String → Option AuthToken) (urlPath : String)
    (w : ResponseWriter) : ResponseWriter × Option AuthToken :=
  let directTo := if urlPath = "" then "/profile/home" else urlPath
  match authenticateFromCookie sessGet verify with
  | Except.error AuthErr.noSession => (httpRedirect w "/auth" 401, none)
  | Except.error AuthErr.noCookie => (httpRedirect w "/auth" 401, none)
  | Except.error AuthErr.tokenVerificationFailed =>
      (httpRedirect w ("/autologin?directto=" ++ directTo) 303, none)
  | Except.ok tk => (w, some tk)

/-! ## JWT session helpers (`GetUserFromJWT`, `IsSignedOn`) -/

/-- The `UserJWT` claims struct (`middleware.go`); the Go field `Type` is
spelled `Type_`, the standard claims are abstracted to the expiry that
decides validity. -/
structure UserJWT where
  IsAdmin : Bool
  IsRecruiter : Bool
  IsDeveloper : Bool
  UserID : String
  Email : String
  Type_ : String
  CreatedAt : Int
deriving DecidableEq

/-- The result of `jwt.ParseWithClaims(tk, &UserJWT{}, keyFunc)`. The library
stores the very `*UserJWT` it was handed in `token.Claims`, so the claims
value always is a `UserJWT` and the Go type assertion on it succeeds. -/
structure ParsedToken where
  valid : Bool
  claims : UserJWT
deriving DecidableEq

/-- Function `GetUserFromJWT` of the middleware package: failing session fetch, missing `jwt`
session value, and an invalid parsed token each return their error; the
claims type assertion cannot fail (see `ParsedToken`), so otherwise the
claims are returned. `parse` stands for `jwt.ParseWithClaims` under the
given key. -/
def GetUserFromJWT (sessGet : Except Unit Session)
    (parse : String → ParsedToken) : Except String UserJWT :=
  match sessGet with
  | Except.error _ => Except.error "could not find cookie"
  | Except.ok sess =>
      match sess.jwtValue with
      | none => Except.error "could not find jwt in session"
      | some tk =>
          let token := parse tk
          if !token.valid then Except.error "token is expired"
          else Except.ok token.claims

/-- Function `IsSignedOn` of the middleware package: `false` on a failing session fetch, a
missing `jwt` session value, or an invalid parsed token; the final `if !ok`
re-tests the session-value assertion, which already succeeded on this path,
so the function then returns `true`. -/
def IsSignedOn (sessGet : Except Unit Session)
    (parse : String → ParsedToken) : Bool :=
  match sessGet with
  | Except.error _ => false
  | Except.ok sess =>
      match sess.jwtValue with
      | none => false
      | some tk =>
          let token := parse tk
          if !token.valid then false
          else true

/-! ## Helper lemmas about response-writer headers -/

/-- Writing a status code leaves the response headers alone. -/
theorem lookupHeader_writeHeader (w : ResponseWriter) (c : Nat) (k : String) :
    lookupHeader (writeHeader w c) k = lookupHeader w k := by
  cases hs : w.status <;> simp [writeHeader, hs, lookupHeader]

/-- Setting a header makes it readable under its key. -/
theorem lookupHeader_setHeader_same (w : ResponseWriter) (k v : String) :
    lookupHeader (setHeader w k v) k = some v := by
  simp [lookupHeader, setHeader, List.find?_cons_of_pos]

/-- Filtering out one key does not change lookups of a different key. -/
theorem find?_key_filter_ne (l : List (String × String)) (k1 k2 : String)
    (h : ¬ k2 = k1) :
    (l.filter (fun p => p.1 != k1)).find? (fun p => p.1 == k2) =
      l.find? (fun p => p.1 == k2) := by
  have h2 : (k1 == k2) = false := by
    simp only [beq_eq_false_iff_ne, ne_eq]
    exact fun e => h e.symm
  induction l with
  | nil => rfl
  | cons p rest ih =>
    cases hf : (p.1 != k1) with
    | false =>
      have hp : p.1 = k1 := by simpa [bne] using hf
      have hpk2 : ¬ ((p.1 == k2) = true) := by
        rw [hp, h2]; exact Bool.false_ne_true
      rw [List.filter_cons, hf, if_neg Bool.false_ne_true,
        @List.find?_cons_of_neg _ (fun q => q.1 == k2) p rest hpk2]
      exact ih
    | true =>
      rw [List.filter_cons, hf, if_pos rfl]
      cases hpk2 : (p.1 == k2) with
      | true =>
        rw [@List.find?_cons_of_pos _ (fun q => q.1 == k2) p
            (List.filter (fun q => q.1 != k1) rest) hpk2,
          @List.find?_cons_of_pos _ (fun q => q.1 == k2) p rest hpk2]
      | false =>
        have hn : ¬ ((p.1 == k2) = true) := by
          rw [hpk2]; exact Bool.false_ne_true
        rw [@List.find?_cons_of_neg _ (fun q => q.1 == k2) p
            (List.filter (fun q => q.1 != k1) rest) hn,
          @List.find?_cons_of_neg _ (fun q => q.1 == k2) p rest hn]
        exact ih

/-- Setting a header does not change lookups of a different key. -/
theorem lookupHeader_setHeader_ne (w : ResponseWriter) (k1 v k2 : String)
    (h : ¬ k2 = k1) :
    lookupHeader (setHeader w k1 v) k2 = lookupHeader w k2 := by
  have h2 : (k1 == k2) = false := by
    simp only [beq_eq_false_iff_ne, ne_eq]
    exact fun e => h e.symm
  simp [lookupHeader, setHeader, List.find?_cons, h2, find?_key_filter_ne _ _ _ h]

/-- A redirect sets the Location header to its target. -/
theorem httpRedirect_location (w : ResponseWriter) (url : String) (c : Nat) :
    lookupHeader (httpRedirect w url c) "Location" = some url := by
  rw [httpRedirect, lookupHeader_writeHeader, lookupHeader_setHeader_same]

/-- On a writer with no committed status a redirect commits its code. -/
theorem httpRedirect_status (w : ResponseWriter) (url : String) (c : Nat)
    (h : w.status = none) : (httpRedirect w url c).status = some c := by
  simp [httpRedirect, writeHeader, setHeader, h]

/-! ## Claims -/

/-- C1: the claim says `GetOrCreateUserFromToken` resolves the email and user
type paired with the token and returns or creates the corresponding `User`.
On the code, the active query reads `users where token = $1` under a schema
with no `token` column (the `user_sign_on_token` join is commented out), so
even with the pairing (token `tok`, email `a@b.com`, type jobseeker) present
in `user_sign_on_token`, the call returns a database error: it neither
returns an existing user nor creates one. -/
theorem C1_getOrCreateUserFromToken_fails_on_paired_token :
    GetOrCreateUserFromToken
      ⟨[], [⟨"tok", "a@b.com", UserTypeDeveloper, 0⟩], [], []⟩
      "tok" "fresh-id" 100 (fun _ => "") =
      Except.error (DBError.undefinedColumn "token") := rfl

/-- C2 counterexample: the claim says every repository read, including
`GetUserTypeByEmail`, turns a no-rows query outcome into a zero result with
a nil error. On the empty database the lookup misses all three tables and
`GetUserTypeByEmail` returns the `sql.ErrNoRows` error, not a nil error. -/
theorem C2_counterexample_getUserTypeByEmail_noRows_error :
    GetUserTypeByEmail ⟨[], [], [], []⟩ "x@y.z" = ("", some DBError.errNoRows) ∧
    (GetUserTypeByEmail ⟨[], [], [], []⟩ "x@y.z").2 ≠ none := by
  exact ⟨rfl, by decide⟩

/-- C2 amended: `GetUser` special-cases no-rows to a nil result with nil
error and returns any other scan error unchanged; `GetOrCreateUserFromToken`
returns every scan error, the no-rows error included, unchanged to its
caller; `GetUserTypeByEmail` treats no-rows on the primary lookup only as a
fallback trigger, returns a non-no-rows primary scan error unchanged, and
when the profile fallbacks also miss returns the final no-rows error rather
than a nil error. -/
theorem C2_amended_noRows_and_error_propagation :
    (getUserFromScan (Except.error DBError.errNoRows) = Except.ok none) ∧
    (∀ e : DBError, e ≠ DBError.errNoRows →
        getUserFromScan (Except.error e) = Except.error e) ∧
    (∀ (db : DB) (freshId : String) (now : Int) (hum : Int → String) (e : DBError),
        gocFromScan db freshId now hum (Except.error e) = Except.error e) ∧
    (∀ (db : DB) (email : String),
        db.users.find? (fun r => r.email == some email) = none →
        db.recruiterProfiles.contains email = false →
        db.developerProfiles.contains email = false →
        GetUserTypeByEmail db email = ("", some DBError.errNoRows)) ∧
    (∀ (db : DB) (email : String) (e : DBError),
        userTypeScan db email = Except.error e → e ≠ DBError.errNoRows →
        GetUserTypeByEmail db email = ("", some e)) := by
  refine ⟨rfl, ?_, ?_, ?_, ?_⟩
  · intro e he
    simp [getUserFromScan, he]
  · intro db freshId now hum e
    rfl
  · intro db email h1 h2 h3
    have h2m : email ∉ db.recruiterProfiles := by simpa using h2
    have h3m : email ∉ db.developerProfiles := by simpa using h3
    simp [GetUserTypeByEmail, userTypeScan, h1, recruiterScan, developerScan, h2m, h3m]
  · intro db email e h1 h2
    cases e <;> simp_all [GetUserTypeByEmail]

/-- Witness for the amended C2 at concrete inputs: a no-rows `GetUser` scan,
a NULL-conversion `GetUser` scan error, a no-rows
`GetOrCreateUserFromToken` scan, an all-tables miss and a NULL `user_type`
primary hit for `GetUserTypeByEmail`. -/
theorem C2_amended_noRows_and_error_propagation_witness :
    getUserFromScan (Except.error DBError.errNoRows) = Except.ok none ∧
    getUserFromScan (Except.error DBError.scanNull) = Except.error DBError.scanNull ∧
    gocFromScan ⟨[], [], [], []⟩ "id" 0 (fun _ => "") (Except.error DBError.errNoRows) =
      Except.error DBError.errNoRows ∧
    GetUserTypeByEmail ⟨[], [], [], []⟩ "a@b.com" = ("", some DBError.errNoRows) ∧
    GetUserTypeByEmail
        ⟨[⟨some "u1", some "a@b.com", none, none, none, none, none, none⟩], [], [], []⟩
        "a@b.com" = ("", some DBError.scanNull) := by
  refine ⟨C2_amended_noRows_and_error_propagation.1,
    C2_amended_noRows_and_error_propagation.2.1 DBError.scanNull (by decide),
    C2_amended_noRows_and_error_propagation.2.2.1 ⟨[], [], [], []⟩ "id" 0
      (fun _ => "") DBError.errNoRows,
    C2_amended_noRows_and_error_propagation.2.2.2.1 ⟨[], [], [], []⟩ "a@b.com"
      rfl rfl rfl,
    C2_amended_noRows_and_error_propagation.2.2.2.2 _ "a@b.com" DBError.scanNull
      rfl (by decide)⟩

/-- C3: the claim says a failed template re-parse on a write event is logged,
the program keeps running and the old template set stays active. On the code
the reload path calls `createTemplateFromGlob`, which wraps
`customtemplate.Must`: a parse failure panics inside the watcher goroutine
(modelled as `none`), terminating the program instead of keeping the old set
in use. -/
theorem C3_reload_parse_failure_panics :
    reloadOnWrite ⟨⟨["layout.html"]⟩⟩ (Except.error "template parse failure") =
      none := rfl

/-- C5: the claim says that outside dev a non-https request gets the 301
redirect and the wrapped handler is not invoked. On the code there is no
`return` after `http.Redirect`, so on the concrete non-https request the 301
redirect to the https URL is written and the wrapped handler is invoked all
the same. -/
theorem C5_https_redirect_still_invokes_handler :
    (HTTPSMiddleware "production"
        ⟨"example.com", "/jobs", [("X-Forwarded-Proto", "http")]⟩ ⟨[], none⟩).2 = true ∧
    lookupHeader (HTTPSMiddleware "production"
        ⟨"example.com", "/jobs", [("X-Forwarded-Proto", "http")]⟩ ⟨[], none⟩).1
      "Location" = some "https://example.com/jobs" ∧
    ((HTTPSMiddleware "production"
        ⟨"example.com", "/jobs", [("X-Forwarded-Proto", "http")]⟩ ⟨[], none⟩).1).status =
      some 301 := ⟨rfl, rfl, rfl⟩

/-- C7: `DeleteExpiredUserSignOnTokens` keeps a sign-on token exactly when it
is at most seven days old at the current time (so it removes exactly the
tokens created more than seven days ago) and leaves the rows of the three
other tables unchanged. -/
theorem C7_deleteExpiredUserSignOnTokens_exact :
    ∀ (db : DB) (now : Int),
      (∀ t : SignOnRow,
        t ∈ (DeleteExpiredUserSignOnTokens db now).signOnTokens ↔
          (t ∈ db.signOnTokens ∧ now - t.createdAt ≤ sevenDaysSeconds)) ∧
      (DeleteExpiredUserSignOnTokens db now).users = db.users ∧
      (DeleteExpiredUserSignOnTokens db now).recruiterProfiles = db.recruiterProfiles ∧
      (DeleteExpiredUserSignOnTokens db now).developerProfiles = db.developerProfiles := by
  intro db now
  refine ⟨?_, rfl, rfl, rfl⟩
  intro t
  simp only [DeleteExpiredUserSignOnTokens, List.mem_filter, Bool.not_eq_true',
    decide_eq_false_iff_not, not_lt]
  exact ⟨fun ⟨h1, h2⟩ => ⟨h1, by omega⟩, fun ⟨h1, h2⟩ => ⟨h1, by omega⟩⟩

/-- Values of the six security headers after `setSecurityHeaders`, and the
untouched status. -/
theorem setSecurityHeaders_fields (w : ResponseWriter) :
    lookupHeader (setSecurityHeaders w) "Content-Security-Policy" =
      some "upgrade-insecure-requests" ∧
    lookupHeader (setSecurityHeaders w) "X-Frame-Options" = some "deny" ∧
    lookupHeader (setSecurityHeaders w) "X-XSS-Protection" = some "1; mode=block" ∧
    lookupHeader (setSecurityHeaders w) "X-Content-Type-Options" = some "nosniff" ∧
    lookupHeader (setSecurityHeaders w) "Strict-Transport-Security" =
      some "max-age=31536000; includeSubDomains" ∧
    lookupHeader (setSecurityHeaders w) "Referrer-Policy" = some "origin" ∧
    (setSecurityHeaders w).status = w.status := by
  unfold setSecurityHeaders
  refine ⟨?_, ?_, ?_, ?_, ?_, ?_, rfl⟩
  · rw [lookupHeader_setHeader_ne _ _ _ _ (by decide),
      lookupHeader_setHeader_ne _ _ _ _ (by decide),
      lookupHeader_setHeader_ne _ _ _ _ (by decide),
      lookupHeader_setHeader_ne _ _ _ _ (by decide),
      lookupHeader_setHeader_ne _ _ _ _ (by decide),
      lookupHeader_setHeader_same]
  · rw [lookupHeader_setHeader_ne _ _ _ _ (by decide),
      lookupHeader_setHeader_ne _ _ _ _ (by decide),
      lookupHeader_setHeader_ne _ _ _ _ (by decide),
      lookupHeader_setHeader_ne _ _ _ _ (by decide),
      lookupHeader_setHeader_same]
  · rw [lookupHeader_setHeader_ne _ _ _ _ (by decide),
      lookupHeader_setHeader_ne _ _ _ _ (by decide),
      lookupHeader_setHeader_ne _ _ _ _ (by decide),
      lookupHeader_setHeader_same]
  · rw [lookupHeader_setHeader_ne _ _ _ _ (by decide),
      lookupHeader_setHeader_ne _ _ _ _ (by decide),
      lookupHeader_setHeader_same]
  · rw [lookupHeader_setHeader_ne _ _ _ _ (by decide),
      lookupHeader_setHeader_same]
  · rw [lookupHeader_setHeader_same]

/-- C4: each cookie-authentication failure kind maps to its response. In the
API middleware every failure writes 401 without invoking the handler. In the
page middleware a missing session or cookie redirects to `/auth` (written
with `http.StatusUnauthorized`), a failed token verification redirects to
the autologin page with status 303, and no failure invokes the handler. -/
theorem C4_cookie_auth_failure_mapping :
    ∀ (sessGet : Except Unit Session) (verify : String → Option AuthToken)
      (urlPath : String) (w : ResponseWriter),
      w.status = none →
      (∀ e : AuthErr, authenticateFromCookie sessGet verify = Except.error e →
        UserAuthenticatedMiddleware sessGet verify w = (writeHeader w 401, none) ∧
        ((UserAuthenticatedMiddleware sessGet verify w).1).status = some 401 ∧
        (UserAuthenticatedPageMiddleware sessGet verify urlPath w).2 = none) ∧
      ((authenticateFromCookie sessGet verify = Except.error AuthErr.noSession ∨
          authenticateFromCookie sessGet verify = Except.error AuthErr.noCookie) →
        lookupHeader (UserAuthenticatedPageMiddleware sessGet verify urlPath w).1
            "Location" = some "/auth" ∧
        ((UserAuthenticatedPageMiddleware sessGet verify urlPath w).1).status =
          some 401) ∧
      (authenticateFromCookie sessGet verify =
          Except.error AuthErr.tokenVerificationFailed →
        lookupHeader (UserAuthenticatedPageMiddleware sessGet verify urlPath w).1
            "Location" =
          some ("/autologin?directto=" ++
            (if urlPath = "" then "/profile/home" else urlPath)) ∧
        ((UserAuthenticatedPageMiddleware sessGet verify urlPath w).1).status =
          some 303) := by
  intro sg v path w hw
  refine ⟨?_, ?_, ?_⟩
  · intro e he
    refine ⟨?_, ?_, ?_⟩
    · simp [UserAuthenticatedMiddleware, he]
    · simp [UserAuthenticatedMiddleware, he, writeHeader, hw]
    · cases e <;> simp [UserAuthenticatedPageMiddleware, he]
  · have hs := httpRedirect_status w "/auth" 401 hw
    intro hor
    cases hor with
    | inl he =>
      exact ⟨by simp [UserAuthenticatedPageMiddleware, he, httpRedirect_location],
        by simp [UserAuthenticatedPageMiddleware, he, hs]⟩
    | inr he =>
      exact ⟨by simp [UserAuthenticatedPageMiddleware, he, httpRedirect_location],
        by simp [UserAuthenticatedPageMiddleware, he, hs]⟩
  · intro he
    have hs := httpRedirect_status w
      ("/autologin?directto=" ++ (if path = "" then "/profile/home" else path)) 303 hw
    exact ⟨by simp [UserAuthenticatedPageMiddleware, he, httpRedirect_location],
      by simp [UserAuthenticatedPageMiddleware, he, hs]⟩

/-- Witness for C4: a missing session, a missing cookie value and a failing
verification at concrete inputs. -/
theorem C4_cookie_auth_failure_mapping_witness :
    UserAuthenticatedMiddleware (Except.error ()) (fun _ => none) ⟨[], none⟩ =
      (writeHeader ⟨[], none⟩ 401, none) ∧
    lookupHeader (UserAuthenticatedPageMiddleware (Except.error ())
        (fun _ => none) "/jobs" ⟨[], none⟩).1 "Location" = some "/auth" ∧
    lookupHeader (UserAuthenticatedPageMiddleware (Except.ok ⟨some "tk"⟩)
        (fun _ => none) "/jobs" ⟨[], none⟩).1 "Location" =
      some "/autologin?directto=/jobs" ∧
    ((UserAuthenticatedPageMiddleware (Except.ok ⟨some "tk"⟩)
        (fun _ => none) "/jobs" ⟨[], none⟩).1).status = some 303 := by
  have h1 := C4_cookie_auth_failure_mapping (Except.error ()) (fun _ => none)
    "/jobs" ⟨[], none⟩ rfl
  have h2 := C4_cookie_auth_failure_mapping (Except.ok ⟨some "tk"⟩) (fun _ => none)
    "/jobs" ⟨[], none⟩ rfl
  exact ⟨(h1.1 AuthErr.noSession rfl).1, (h1.2.1 (Or.inl rfl)).1,
    (h2.2.2 rfl).1, (h2.2.2 rfl).2⟩

/-- C6: `GetUserTypeByEmail` consults the `users` table first; a primary hit
with a non-NULL `user_type` answers independently of both profile tables;
only a no-rows primary outcome falls back to `recruiter_profile` (answering
the literal recruiter, independently of `developer_profile`) and only then
to `developer_profile` (answering the literal developer). -/
theorem C6_getUserTypeByEmail_fallback_order :
    ∀ (db : DB) (email : String),
      (∀ t : String, userTypeScan db email = Except.ok t →
        ∀ (rp dp : List String),
          GetUserTypeByEmail
            { db with recruiterProfiles := rp, developerProfiles := dp } email =
            (t, none)) ∧
      (db.users.find? (fun r => r.email == some email) = none →
        db.recruiterProfiles.contains email = true →
        ∀ dp : List String,
          GetUserTypeByEmail { db with developerProfiles := dp } email =
            ("recruiter", none)) ∧
      (db.users.find? (fun r => r.email == some email) = none →
        db.recruiterProfiles.contains email = false →
        db.developerProfiles.contains email = true →
        GetUserTypeByEmail db email = ("developer", none)) := by
  intro db email
  refine ⟨?_, ?_, ?_⟩
  · intro t ht rp dp
    have ht2 : userTypeScan
        { db with recruiterProfiles := rp, developerProfiles := dp } email =
        Except.ok t := ht
    simp [GetUserTypeByEmail, ht2]
  · intro h1 h2 dp
    have hu : userTypeScan { db with developerProfiles := dp } email =
        Except.error DBError.errNoRows := by
      simp [userTypeScan, h1]
    have h2m : email ∈ db.recruiterProfiles := by simpa using h2
    have hr : recruiterScan { db with developerProfiles := dp } email =
        Except.ok "recruiter" := by
      simp [recruiterScan, h2m]
    simp [GetUserTypeByEmail, hu, hr]
  · intro h1 h2 h3
    have hu : userTypeScan db email = Except.error DBError.errNoRows := by
      simp [userTypeScan, h1]
    have h2m : email ∉ db.recruiterProfiles := by simpa using h2
    have h3m : email ∈ db.developerProfiles := by simpa using h3
    simp [GetUserTypeByEmail, hu, recruiterScan, developerScan, h2m, h3m]

/-- Witness for C6: a primary hit beats populated profile tables, the
recruiter fallback beats the developer table, and the developer fallback
answers last. -/
theorem C6_getUserTypeByEmail_fallback_order_witness :
    GetUserTypeByEmail
      ⟨[⟨some "u1", some "a@b.com", none, some "admin", none, none, none, none⟩],
       [], ["a@b.com"], ["a@b.com"]⟩ "a@b.com" = ("admin", none) ∧
    GetUserTypeByEmail ⟨[], [], ["a@b.com"], ["a@b.com"]⟩ "a@b.com" =
      ("recruiter", none) ∧
    GetUserTypeByEmail ⟨[], [], [], ["a@b.com"]⟩ "a@b.com" =
      ("developer", none) := by
  refine ⟨?_, ?_, ?_⟩
  · exact (C6_getUserTypeByEmail_fallback_order
      ⟨[⟨some "u1", some "a@b.com", none, some "admin", none, none, none, none⟩],
       [], [], []⟩ "a@b.com").1 "admin" rfl ["a@b.com"] ["a@b.com"]
  · exact (C6_getUserTypeByEmail_fallback_order
      ⟨[], [], ["a@b.com"], []⟩ "a@b.com").2.1 rfl rfl ["a@b.com"]
  · exact (C6_getUserTypeByEmail_fallback_order
      ⟨[], [], [], ["a@b.com"]⟩ "a@b.com").2.2 rfl rfl rfl

/-- C8: outside dev a `HeadlessChrome` user agent gets status 418 and the
handler is skipped; otherwise the six security headers are set and the
handler runs; in dev no header is set, no request is filtered and the
handler runs on the untouched writer. -/
theorem C8_headersMiddleware_behaviour :
    ∀ (env : String) (r : Request) (w : ResponseWriter),
      (env = "dev" → HeadersMiddleware env r w = (w, true)) ∧
      (¬ env = "dev" →
        stringContains (headerGet r "User-Agent") "HeadlessChrome" = true →
        HeadersMiddleware env r w = (writeHeader w 418, false) ∧
        (w.status = none → ((HeadersMiddleware env r w).1).status = some 418)) ∧
      (¬ env = "dev" →
        stringContains (headerGet r "User-Agent") "HeadlessChrome" = false →
        (HeadersMiddleware env r w).2 = true ∧
        lookupHeader (HeadersMiddleware env r w).1 "Content-Security-Policy" =
          some "upgrade-insecure-requests" ∧
        lookupHeader (HeadersMiddleware env r w).1 "X-Frame-Options" = some "deny" ∧
        lookupHeader (HeadersMiddleware env r w).1 "X-XSS-Protection" =
          some "1; mode=block" ∧
        lookupHeader (HeadersMiddleware env r w).1 "X-Content-Type-Options" =
          some "nosniff" ∧
        lookupHeader (HeadersMiddleware env r w).1 "Strict-Transport-Security" =
          some "max-age=31536000; includeSubDomains" ∧
        lookupHeader (HeadersMiddleware env r w).1 "Referrer-Policy" = some "origin" ∧
        ((HeadersMiddleware env r w).1).status = w.status) := by
  intro env r w
  refine ⟨?_, ?_, ?_⟩
  · intro he
    subst he
    simp [HeadersMiddleware]
  · intro he hua
    have hb : (env != "dev") = true := by
      have : (env == "dev") = false := beq_eq_false_iff_ne.mpr he
      simp [bne, this]
    refine ⟨by simp [HeadersMiddleware, hb, hua], ?_⟩
    intro hw
    simp [HeadersMiddleware, hb, hua, writeHeader, hw]
  · intro he hua
    have hb : (env != "dev") = true := by
      have : (env == "dev") = false := beq_eq_false_iff_ne.mpr he
      simp [bne, this]
    have hmw : HeadersMiddleware env r w = (setSecurityHeaders w, true) := by
      simp [HeadersMiddleware, hb, hua]
    rw [hmw]
    exact ⟨rfl, (setSecurityHeaders_fields w).1, (setSecurityHeaders_fields w).2.1,
      (setSecurityHeaders_fields w).2.2.1, (setSecurityHeaders_fields w).2.2.2.1,
      (setSecurityHeaders_fields w).2.2.2.2.1,
      (setSecurityHeaders_fields w).2.2.2.2.2.1,
      (setSecurityHeaders_fields w).2.2.2.2.2.2⟩

/-- Witness for C8: dev passthrough, the headless-browser filter, and one of
the security headers, at concrete requests. -/
theorem C8_headersMiddleware_behaviour_witness :
    HeadersMiddleware "dev" ⟨"example.com", "/", []⟩ ⟨[], none⟩ =
      (⟨[], none⟩, true) ∧
    HeadersMiddleware "production"
        ⟨"example.com", "/",
         [("User-Agent", "Mozilla/5.0 HeadlessChrome/90.0")]⟩ ⟨[], none⟩ =
      (writeHeader ⟨[], none⟩ 418, false) ∧
    lookupHeader (HeadersMiddleware "production"
        ⟨"example.com", "/", [("User-Agent", "Mozilla/5.0")]⟩ ⟨[], none⟩).1
      "X-Frame-Options" = some "deny" := by
  refine ⟨(C8_headersMiddleware_behaviour "dev" ⟨"example.com", "/", []⟩
      ⟨[], none⟩).1 rfl, ?_, ?_⟩
  · exact ((C8_headersMiddleware_behaviour "production"
      ⟨"example.com", "/", [("User-Agent", "Mozilla/5.0 HeadlessChrome/90.0")]⟩
      ⟨[], none⟩).2.1 (by decide) (by decide)).1
  · exact ((C8_headersMiddleware_behaviour "production"
      ⟨"example.com", "/", [("User-Agent", "Mozilla/5.0")]⟩
      ⟨[], none⟩).2.2 (by decide) (by decide)).2.2.1

/-- C9: the template helper last is total on integer slices: the empty slice
yields -1 and a non-empty slice yields its final element (the in-bounds index
proof is part of the definition, so no out-of-bounds access exists). -/
theorem C9_lastHelper_total :
    lastHelper [] = -1 ∧
    ∀ (a : List Int) (h : a ≠ []), lastHelper a = a.getLast h := by
  refine ⟨rfl, fun a h => ?_⟩
  have hne : ¬ a.length = 0 := fun hl => h (List.length_eq_zero.mp hl)
  rw [lastHelper, dif_neg hne]
  exact List.get_length_sub_one _

/-- Witness for C9 at the empty slice and a concrete three-element slice. -/
theorem C9_lastHelper_total_witness :
    lastHelper [] = -1 ∧ lastHelper [5, 7, 9] = 9 := by
  constructor
  · exact C9_lastHelper_total.1
  · rw [C9_lastHelper_total.2 [5, 7, 9] (by decide)]
    rfl

/-- C10: `IsSignedOn` returns true exactly when `GetUserFromJWT` on the same
session fetch and JWT parse returns claims with a nil error. -/
theorem C10_isSignedOn_iff_getUserFromJWT :
    ∀ (sessGet : Except Unit Session) (parse : String → ParsedToken),
      IsSignedOn sessGet parse = true ↔
        ∃ u : UserJWT, GetUserFromJWT sessGet parse = Except.ok u := by
  intro sg p
  cases sg with
  | error e => simp [IsSignedOn, GetUserFromJWT]
  | ok sess =>
    cases hj : sess.jwtValue with
    | none => simp [IsSignedOn, GetUserFromJWT, hj]
    | some tk =>
      cases hv : (p tk).valid with
      | true => simp [IsSignedOn, GetUserFromJWT, hj, hv]
      | false => simp [IsSignedOn, GetUserFromJWT, hj, hv]

end JobBoard
